import Mathlib

/-!
Shallow embedding of the redux-basics tutorial repository
(`src/Part I/examples/number_counter/index.js`): the counter reducer fed
to `redux.createStore` (lines 15-40), the walkthrough's hand-rolled
`createStore` (lines 297-324) with its `dispatchAction`, `subscribe` and
`getState` members, and the bio/number reducer `myReducer`
(lines 326-339) together with the final walkthrough store
(lines 341-357).

JavaScript values that the program actually distinguishes are modelled
explicitly: `undefined`, `NaN` and numbers form `JsVal` (the counter
reducer tests `state === undefined` and JS arithmetic on `undefined`
yields `NaN`); a function body with no `return` statement returns
`undefined`, modelled as `none`.  Listeners are opaque identifiers; a
dispatch reports the ordered log of listener invocations it performed.
Reducer exceptions are modelled with `Except` in a second, fallible copy
of the dispatch loop that mirrors the same JS statement order.
-/

/-- The numeric JS values flowing through the counter example:
`undefined` (the store's state before any initialisation), `NaN`
(result of arithmetic on `undefined`), or an actual number. -/
inductive JsVal : Type
  | undef : JsVal
  | nan : JsVal
  | num : Int → JsVal
deriving DecidableEq, Repr

/-- JS `+` on the values above: any operand that is not a number
produces `NaN` (both `undefined + x` and `NaN + x` are `NaN`). -/
def jsAdd : JsVal → JsVal → JsVal
  | JsVal.num a, JsVal.num b => JsVal.num (a + b)
  | _, _ => JsVal.nan

/-- JS `-`, with the same non-number-to-`NaN` coercion as `jsAdd`. -/
def jsSub : JsVal → JsVal → JsVal
  | JsVal.num a, JsVal.num b => JsVal.num (a - b)
  | _, _ => JsVal.nan

/-- An action object dispatched to the counter store: a `type` string and
an optional `incrementByThis` payload (`none` = the field is absent,
i.e. reading it yields `undefined`). -/
structure NumberAction where
  type : String
  incrementByThis : Option Int := none
deriving DecidableEq, Repr

/-- A missing payload field read in JS yields `undefined`. -/
def payloadVal : Option Int → JsVal
  | none => JsVal.undef
  | some n => JsVal.num n

/-- The anonymous reducer passed to `redux.createStore` at lines 15-40:
defaults `undefined` state to `0`, then matches `action.type` against
`INCREMENT`, `DECREMENT` and `INCREMENT_BY`, returning the (possibly
defaulted) state when nothing matches. -/
def numberStoreReducer (state : JsVal) (action : NumberAction) : JsVal :=
  let s := if state = JsVal.undef then JsVal.num 0 else state
  if action.type = "INCREMENT" then jsAdd s (JsVal.num 1)
  else if action.type = "DECREMENT" then jsSub s (JsVal.num 1)
  else if action.type = "INCREMENT_BY" then jsAdd s (payloadVal action.incrementByThis)
  else s

/-- The composite state `{num, name, age}` of the walkthrough's final
example; `age` starts as JS `null`, modelled as `none`. -/
structure BioState where
  num : Int
  name : String
  age : Option Int
deriving DecidableEq, Repr

/-- An action object for `myReducer`: a `type` string plus the payload
fields the two recognized branches read (`name`/`age` for `UPDATE_BIO`,
`incrementer` for `INCREMENT_NUM`). -/
structure BioAction where
  type : String
  name : String := ""
  age : Option Int := none
  incrementer : Int := 0
deriving DecidableEq, Repr

/-- `myReducer` (lines 326-339): `UPDATE_BIO` copies `name` and `age`
from the action over the old state via `Object.assign`; `INCREMENT_NUM`
sets `num` to `action.incrementer`; any other type returns `oldState`
unchanged. -/
def myReducer (oldState : BioState) (action : BioAction) : BioState :=
  if action.type = "UPDATE_BIO" then
    { oldState with name := action.name, age := action.age }
  else if action.type = "INCREMENT_NUM" then
    { oldState with num := action.incrementer }
  else oldState

/-- A store produced by the walkthrough's `createStore(reducer,
initialState)` (lines 297-324): the closed-over `state` and `listeners`
variables plus the fixed reducer.  Listeners are opaque identifiers. -/
structure Store (σ α : Type) where
  state : σ
  listeners : List Nat
  reducer : σ → α → σ

/-- `createStore(reducer, initialState)`: `state = initialState`,
`listeners = []`. -/
def createStore {σ α : Type} (reducer : σ → α → σ) (initialState : σ) : Store σ α :=
  { state := initialState, listeners := [], reducer := reducer }

/-- `listeners.forEach(listener => listener())` — invokes each listener
in list order; the result is the invocation log, in order. -/
def forEachInvoke (ls : List Nat) : List Nat :=
  ls.foldl (fun log l => log ++ [l]) []

/-- `dispatchAction(action)` (lines 302-307): `state = reducer(state,
action)` then the `forEach` over the listeners.  Returns the updated
store together with the log of listener invocations. -/
def Store.dispatchAction {σ α : Type} (st : Store σ α) (a : α) : Store σ α × List Nat :=
  ({ st with state := st.reducer st.state a }, forEachInvoke st.listeners)

/-- `subscribe(callback)` (lines 310-312): `listeners.push(callback)`;
the body has no `return` statement, so the call returns `undefined`,
modelled as `none` — in particular no unsubscribe function is handed
back. -/
def Store.subscribe {σ α : Type} (st : Store σ α) (l : Nat) :
    Store σ α × Option (Store σ α → Store σ α) :=
  ({ st with listeners := st.listeners ++ [l] }, none)

/-- `getState()` (lines 315-317): returns the closed-over state. -/
def Store.getState {σ α : Type} (st : Store σ α) : σ :=
  st.state

/-- One operation a caller can perform on a store. -/
inductive StoreOp (α : Type) : Type
  | dispatch : α → StoreOp α
  | subscribe : Nat → StoreOp α
  | getState : StoreOp α

/-- Effect of one operation on the store (the values returned to the
caller — the dispatch log, the `undefined` from subscribe, the state
from getState — do not touch the store beyond what the operation
itself does). -/
def stepOp {σ α : Type} (st : Store σ α) : StoreOp α → Store σ α
  | StoreOp.dispatch a => (st.dispatchAction a).1
  | StoreOp.subscribe l => (st.subscribe l).1
  | StoreOp.getState => st

/-- Run a sequence of operations left to right. -/
def runOps {σ α : Type} (st : Store σ α) (ops : List (StoreOp α)) : Store σ α :=
  ops.foldl stepOp st

/-- The dispatch history of an operation sequence, in order. -/
def dispatchedActions {α : Type} : List (StoreOp α) → List α
  | [] => []
  | StoreOp.dispatch a :: rest => a :: dispatchedActions rest
  | StoreOp.subscribe _ :: rest => dispatchedActions rest
  | StoreOp.getState :: rest => dispatchedActions rest

/-- The listeners subscribed by an operation sequence, in order. -/
def subscribedListeners {α : Type} : List (StoreOp α) → List Nat
  | [] => []
  | StoreOp.dispatch _ :: rest => subscribedListeners rest
  | StoreOp.subscribe l :: rest => l :: subscribedListeners rest
  | StoreOp.getState :: rest => subscribedListeners rest

/-- A store whose reducer may throw: the JS reducer body can raise, in
which case the assignment `state = reducer(state, action)` never
executes.  Same shape as `Store` with a fallible reducer. -/
structure StoreE (σ ε α : Type) where
  state : σ
  listeners : List Nat
  reducer : σ → α → Except ε σ

/-- `dispatchAction` under a throwing reducer, mirroring the statement
order of lines 302-307: the right-hand side `reducer(state, action)` is
evaluated first; if it throws, the assignment and the `forEach` are
skipped and the exception propagates to the caller.  Returns the
outcome, the store as the caller sees it afterwards, and the listener
invocation log. -/
def StoreE.dispatchAction {σ ε α : Type} (st : StoreE σ ε α) (a : α) :
    Except ε σ × StoreE σ ε α × List Nat :=
  match st.reducer st.state a with
  | Except.error e => (Except.error e, st, [])
  | Except.ok newState =>
      (Except.ok newState, { st with state := newState }, forEachInvoke st.listeners)

/-- The keys of the object literal returned by `createStore`
(lines 319-324), in source order. -/
def createStoreKeys : List String :=
  ["dispatchAction", "subscribe", "getState"]

/-- The three members of the returned store object. -/
inductive StoreMember : Type
  | dispatchActionM : StoreMember
  | subscribeM : StoreMember
  | getStateM : StoreMember
deriving DecidableEq, Repr

/-- JS property access on the returned store object: a key that is not
one of the three members yields `undefined` (`none`). -/
def storeGet (k : String) : Option StoreMember :=
  if k = "dispatchAction" then some StoreMember.dispatchActionM
  else if k = "subscribe" then some StoreMember.subscribeM
  else if k = "getState" then some StoreMember.getStateM
  else none

/-- Calling the result of a property access: invoking `undefined` throws
a `TypeError` instead of running anything. -/
def invokeMember : Option StoreMember → Except String StoreMember
  | none => Except.error "TypeError"
  | some m => Except.ok m

/-- The final walkthrough store (line 343): `createStore(myReducer, {})`
— but the claims' scenario state `{num: 0, name: '', age: null}` comes
from the inline version at lines 251-289, whose `stateModifier` is
textually identical to `myReducer`.  This store starts at that composite
initial state. -/
def bioStore0 : Store BioState BioAction :=
  createStore myReducer { num := 0, name := "", age := none }

/-- Modelled from the spec: `redux.createStore` (the `require('redux')`
dependency used at lines 8 and 15) is not under `src/`.  Per §4.1 the
store holds a current state, dispatch computes `reducer(currentState,
action)`, replaces the state and notifies every listener in
subscription order, and per the §8 scenario the numeric state starts
at 0 — the same semantics as the walkthrough's own `createStore`, so
the store is built with that constructor at initial state `0`. -/
def numberStore : Store JsVal NumberAction :=
  createStore numberStoreReducer (JsVal.num 0)

/-- The store after the single `numberStore.subscribe(...)` call at
lines 42-44 (the logging listener, identifier 0). -/
def numberStoreSubscribed : Store JsVal NumberAction :=
  (numberStore.subscribe 0).1

/-- First dispatch of the counter example (line 46): `INCREMENT`.  Each
of these values is the store-and-log result of one dispatch. -/
def counterDispatch1 : Store JsVal NumberAction × List Nat :=
  numberStoreSubscribed.dispatchAction { type := "INCREMENT" }

/-- Second dispatch (line 48): `INCREMENT_BY` with `incrementByThis: 3`. -/
def counterDispatch2 : Store JsVal NumberAction × List Nat :=
  counterDispatch1.1.dispatchAction { type := "INCREMENT_BY", incrementByThis := some 3 }

/-- Third dispatch (line 50): `DECREMENT`. -/
def counterDispatch3 : Store JsVal NumberAction × List Nat :=
  counterDispatch2.1.dispatchAction { type := "DECREMENT" }

/-- A concrete fallible store whose reducer always throws, used to
witness the exception-propagation theorem. -/
def throwingStore : StoreE Int String Int :=
  { state := 41, listeners := [0, 1],
    reducer := fun _ _ => Except.error "reducer blew up" }

/-! Helper lemmas shared by the claim theorems. -/

/-- Folding with snoc-append from any accumulator appends the list. -/
theorem foldl_snoc_eq (acc ls : List Nat) :
    ls.foldl (fun log l => log ++ [l]) acc = acc ++ ls := by
  induction ls generalizing acc with
  | nil => simp
  | cons x xs ih => simp [List.foldl, ih]

/-- The `forEach` loop invokes exactly the listeners of the list, in
list order. -/
theorem forEachInvoke_eq (ls : List Nat) : forEachInvoke ls = ls := by
  simpa [forEachInvoke] using foldl_snoc_eq [] ls

/-- No store operation replaces the reducer. -/
theorem stepOp_reducer {σ α : Type} (st : Store σ α) (op : StoreOp α) :
    (stepOp st op).reducer = st.reducer := by
  cases op <;> rfl

/-- State after a run is the left fold of the reducer over the dispatch
history. -/
theorem runOps_state {σ α : Type} (st : Store σ α) (ops : List (StoreOp α)) :
    (runOps st ops).state = (dispatchedActions ops).foldl st.reducer st.state := by
  induction ops generalizing st with
  | nil => rfl
  | cons op rest ih =>
    cases op with
    | dispatch a =>
        simpa [runOps, stepOp, Store.dispatchAction, dispatchedActions, List.foldl]
          using ih (st.dispatchAction a).1
    | subscribe l =>
        simpa [runOps, stepOp, Store.subscribe, dispatchedActions, List.foldl]
          using ih (st.subscribe l).1
    | getState =>
        simpa [runOps, stepOp, dispatchedActions, List.foldl] using ih st

/-- Listeners after a run are the listeners before it followed by the
subscriptions of the run, in order. -/
theorem runOps_listeners {σ α : Type} (st : Store σ α) (ops : List (StoreOp α)) :
    (runOps st ops).listeners = st.listeners ++ subscribedListeners ops := by
  induction ops generalizing st with
  | nil => simp [runOps, subscribedListeners]
  | cons op rest ih =>
    cases op with
    | dispatch a =>
        simpa [runOps, stepOp, Store.dispatchAction, subscribedListeners, List.foldl]
          using ih (st.dispatchAction a).1
    | subscribe l =>
        simpa [runOps, stepOp, Store.subscribe, subscribedListeners, List.foldl,
          List.append_assoc] using ih (st.subscribe l).1
    | getState =>
        simpa [runOps, stepOp, subscribedListeners, List.foldl] using ih st

/-! Claim theorems. -/

/-- C1: for every sequence of operations on a store built by
`createStore(reducer, initialState)`, `getState()` afterwards is the
left fold of the reducer over the initial state and the dispatch
history, and neither `subscribe` nor `getState` changes the state. -/
theorem getState_is_left_fold {σ α : Type} (r : σ → α → σ) (init : σ)
    (ops : List (StoreOp α)) :
    (runOps (createStore r init) ops).getState = (dispatchedActions ops).foldl r init ∧
    (∀ (st : Store σ α) (l : Nat), (stepOp st (StoreOp.subscribe l)).getState = st.getState) ∧
    (∀ st : Store σ α, (stepOp st StoreOp.getState).getState = st.getState) := by
  refine ⟨?_, fun st l => rfl, fun st => rfl⟩
  simpa [Store.getState, createStore] using runOps_state (createStore r init) ops

/-- C2: when the reducer throws during a dispatch, the exception
propagates to the caller, the store — state included — is exactly the
pre-dispatch one (the transition is not committed), and no listener is
notified. -/
theorem dispatch_error_leaves_state {σ ε α : Type} (st : StoreE σ ε α) (a : α) (e : ε)
    (h : st.reducer st.state a = Except.error e) :
    st.dispatchAction a = (Except.error e, st, []) := by
  simp [StoreE.dispatchAction, h]

/-- Witness for C2: a concrete store whose reducer always throws; the
dispatch returns the error, the untouched store and an empty
notification log. -/
theorem dispatch_error_leaves_state_witness :
    throwingStore.reducer throwingStore.state 7 = Except.error "reducer blew up" ∧
    throwingStore.dispatchAction 7 = (Except.error "reducer blew up", throwingStore, []) :=
  ⟨rfl, dispatch_error_leaves_state throwingStore 7 "reducer blew up" rfl⟩

/-- Counterexample to C3 as stated: the source's `subscribe` has no
return statement, so it returns `undefined` (`none`) rather than an
unsubscribe capability — here at the concrete final walkthrough store
and listener 5. -/
theorem subscribe_returns_no_capability :
    ((bioStore0.subscribe 5).2).isSome = false :=
  rfl

/-- C3 amended: `subscribe(listener)` appends the listener to the end of
the notification list and returns `undefined` — no unsubscribe
capability exists, so whatever operations follow the subscription, the
listener is invoked on every subsequent dispatch (already-completed
dispatches are of course unaffected, their logs being already
produced). -/
theorem subscribe_appends_returns_undefined {σ α : Type} (st : Store σ α) (l : Nat) :
    (st.subscribe l).1.listeners = st.listeners ++ [l] ∧
    ((st.subscribe l).2).isSome = false ∧
    ∀ (ops : List (StoreOp α)) (a : α),
      l ∈ ((runOps (st.subscribe l).1 ops).dispatchAction a).2 := by
  refine ⟨rfl, rfl, fun ops a => ?_⟩
  show l ∈ forEachInvoke (runOps (st.subscribe l).1 ops).listeners
  rw [forEachInvoke_eq, runOps_listeners]
  simp [Store.subscribe]

/-- C4: a dispatch invokes exactly the listeners registered before it,
once per registration (so a listener subscribed twice runs twice), in
registration order, whatever the action and state; on a store built by
`createStore` and operated on by any operation sequence, the invocation
log of a further dispatch is precisely the subscription history in
order. -/
theorem dispatch_notifies_listeners_in_order {σ α : Type} (st : Store σ α) (a : α) :
    (st.dispatchAction a).2 = st.listeners ∧
    (∀ l : Nat, ((st.dispatchAction a).2).count l = st.listeners.count l) ∧
    ∀ (r : σ → α → σ) (init : σ) (ops : List (StoreOp α)),
      ((runOps (createStore r init) ops).dispatchAction a).2 = subscribedListeners ops := by
  refine ⟨forEachInvoke_eq st.listeners, fun l => by
    simp [Store.dispatchAction, forEachInvoke_eq], fun r init ops => ?_⟩
  show forEachInvoke (runOps (createStore r init) ops).listeners = subscribedListeners ops
  rw [forEachInvoke_eq, runOps_listeners]
  simp [createStore]

/-- Counterexample to C5 as stated: at the state `undefined` — the very
state redux hands the reducer on initialisation — an unrecognized action
does not return the first argument unchanged: the counter reducer first
defaults the state to `0` and returns that. -/
theorem unrecognized_not_identity_on_undef :
    numberStoreReducer JsVal.undef { type := "UNRECOGNIZED" } = JsVal.num 0 ∧
    JsVal.num 0 ≠ JsVal.undef := by
  exact ⟨by decide, by decide⟩

/-- C5 amended: for every action whose type is unrecognized, `myReducer`
returns its first argument unchanged for every state, and the counter
reducer does so for every state other than `undefined` (at `undefined`
it returns the default `0`); dispatching an unrecognized action through
a store whose reducer is `myReducer` leaves `getState()` unchanged. -/
theorem reducer_identity_on_unrecognized :
    (∀ (s : BioState) (a : BioAction),
        a.type ≠ "UPDATE_BIO" → a.type ≠ "INCREMENT_NUM" → myReducer s a = s) ∧
    (∀ (s : JsVal) (a : NumberAction), s ≠ JsVal.undef →
        a.type ≠ "INCREMENT" → a.type ≠ "DECREMENT" → a.type ≠ "INCREMENT_BY" →
        numberStoreReducer s a = s) ∧
    (∀ (st : Store BioState BioAction) (a : BioAction), st.reducer = myReducer →
        a.type ≠ "UPDATE_BIO" → a.type ≠ "INCREMENT_NUM" →
        ((st.dispatchAction a).1).getState = st.getState) := by
  refine ⟨fun s a h1 h2 => ?_, fun s a hs h1 h2 h3 => ?_, fun st a hr h1 h2 => ?_⟩
  · simp [myReducer, h1, h2]
  · simp [numberStoreReducer, hs, h1, h2, h3]
  · simp [Store.dispatchAction, Store.getState, hr, myReducer, h1, h2]

/-- Witness for the amended C5: concrete unrecognized action `NOPE`
against a concrete bio state and the numeric state `7`. -/
theorem reducer_identity_on_unrecognized_witness :
    myReducer { num := 1, name := "x", age := none } { type := "NOPE" } =
      { num := 1, name := "x", age := none } ∧
    numberStoreReducer (JsVal.num 7) { type := "NOPE" } = JsVal.num 7 :=
  ⟨reducer_identity_on_unrecognized.1 _ _ (by decide) (by decide),
   reducer_identity_on_unrecognized.2.1 _ _ (by decide) (by decide) (by decide) (by decide)⟩

/-- C6: on the composite state starting at `{num: 0, name: '', age:
null}`, dispatching `UPDATE_BIO {name:'Zak', age:17}` and then
`INCREMENT_NUM {incrementer:5}` makes `getState()` return `{num: 5,
name: 'Zak', age: 17}`. -/
theorem bio_scenario_final_state :
    (((bioStore0.dispatchAction { type := "UPDATE_BIO", name := "Zak", age := some 17 }).1.dispatchAction
        { type := "INCREMENT_NUM", incrementer := 5 }).1).getState =
      { num := 5, name := "Zak", age := some 17 } := by
  decide

/-- C7: on the counter store — numeric state starting at 0 with the one
subscribed logging listener — the dispatches `INCREMENT`,
`INCREMENT_BY 3`, `DECREMENT` pass through the states 0, 1, 4, 3, and
each of the three dispatches invokes the subscribed listener exactly
once. -/
theorem counter_scenario_states_and_logs :
    numberStoreSubscribed.getState = JsVal.num 0 ∧
    counterDispatch1.1.getState = JsVal.num 1 ∧ counterDispatch1.2 = [0] ∧
    counterDispatch2.1.getState = JsVal.num 4 ∧ counterDispatch2.2 = [0] ∧
    counterDispatch3.1.getState = JsVal.num 3 ∧ counterDispatch3.2 = [0] := by
  decide

/-- C8: subscribing appends exactly one listener at the end of the list;
dispatch and getState leave the listener list untouched; hence over any
operation sequence the length of the listener list never decreases. -/
theorem listener_list_only_grows {σ α : Type} :
    (∀ (st : Store σ α) (l : Nat),
        (stepOp st (StoreOp.subscribe l)).listeners = st.listeners ++ [l]) ∧
    (∀ (st : Store σ α) (a : α), (stepOp st (StoreOp.dispatch a)).listeners = st.listeners) ∧
    (∀ st : Store σ α, (stepOp st StoreOp.getState).listeners = st.listeners) ∧
    (∀ (st : Store σ α) (ops : List (StoreOp α)),
        st.listeners.length ≤ (runOps st ops).listeners.length) := by
  refine ⟨fun st l => rfl, fun st a => rfl, fun st => rfl, fun st ops => ?_⟩
  rw [runOps_listeners]
  simp

/-- C9: the object returned by the walkthrough's `createStore` has
exactly the keys `dispatchAction`, `subscribe` and `getState`; there is
no `dispatch` key, so the walkthrough's `store.dispatch(...)` calls look
up `undefined` and invoking it throws a `TypeError` instead of
performing a dispatch. -/
theorem store_object_has_no_dispatch :
    createStoreKeys = ["dispatchAction", "subscribe", "getState"] ∧
    (∀ k : String, (storeGet k).isSome = true ↔ k ∈ createStoreKeys) ∧
    storeGet "dispatch" = none ∧
    invokeMember (storeGet "dispatch") = Except.error "TypeError" := by
  refine ⟨rfl, fun k => ?_, rfl, rfl⟩
  unfold storeGet createStoreKeys
  split_ifs <;> simp [*]

/-- C10: the `INCREMENT_NUM` branch of `myReducer` overwrites `num` with
`action.incrementer` instead of adding it: the result's `num` is always
the payload, and two successive `INCREMENT_NUM 5` dispatches leave `num`
at 5, not 10. -/
theorem increment_num_overwrites :
    (∀ (s : BioState) (nm : String) (ag : Option Int) (k : Int),
        (myReducer s { type := "INCREMENT_NUM", name := nm, age := ag, incrementer := k }).num = k) ∧
    (∀ s : BioState,
        (myReducer (myReducer s { type := "INCREMENT_NUM", incrementer := 5 })
            { type := "INCREMENT_NUM", incrementer := 5 }).num = 5) := by
  constructor
  · intro s nm ag k
    simp [myReducer]
  · intro s
    simp [myReducer]
